import Mathlib

/-!
Verification of the request/response reliability layer of the cleaning-cards
repository: the JSON recovery parser, the OpenRouter retry wrapper, the
response normalizers, the three server variants' handler logic around them,
the client upload transport and the HEIC conversion fallback.

Strings are modelled as `List Char`; JavaScript values parsed from JSON are
modelled by the inductive `JsVal` (numbers keep their source token, since no
property proved here depends on numeric value). The external `JSON.parse`
builtin is modelled by `jsonParse`, a strict fuel-based JSON parser.
-/

/-- Shorthand turning a Lean string literal into the `List Char` model used
throughout. -/
def toCL (s : String) : List Char := s.toList

/-- A JavaScript value produced by `JSON.parse`: null, booleans, numbers
(kept as their source token), strings, arrays and objects (ordered field
lists; a duplicated key is looked up last-binding-first, as in JS). -/
inductive JsVal where
  | null : JsVal
  | boolean : Bool → JsVal
  | num : List Char → JsVal
  | str : List Char → JsVal
  | arr : List JsVal → JsVal
  | obj : List (List Char × JsVal) → JsVal

/-- JSON whitespace (the four characters RFC 8259 allows between tokens). -/
def isJsonWs (c : Char) : Bool :=
  c = ' ' || c = '\t' || c = '\n' || c = '\r'

/-- Drop leading JSON whitespace. -/
def skipWs : List Char → List Char
  | [] => []
  | c :: cs => if isJsonWs c then skipWs cs else c :: cs

/-- Value of one hex digit, for \u escapes. -/
def hexVal (c : Char) : Option Nat :=
  if '0' ≤ c ∧ c ≤ '9' then some (c.toNat - '0'.toNat)
  else if 'a' ≤ c ∧ c ≤ 'f' then some (c.toNat - 'a'.toNat + 10)
  else if 'A' ≤ c ∧ c ≤ 'F' then some (c.toNat - 'A'.toNat + 10)
  else none

/-- Body of a JSON string literal, after the opening quote: returns the
decoded characters and the input after the closing quote. Raw control
characters are invalid; the standard escapes are decoded. -/
def parseStringBody : List Char → Option (List Char × List Char)
  | [] => none
  | c :: cs =>
    if c = '"' then some ([], cs)
    else if c = '\\' then
      match cs with
      | [] => none
      | e :: cs2 =>
        if e = '"' then (parseStringBody cs2).map (fun p => ('"' :: p.1, p.2))
        else if e = '\\' then (parseStringBody cs2).map (fun p => ('\\' :: p.1, p.2))
        else if e = '/' then (parseStringBody cs2).map (fun p => ('/' :: p.1, p.2))
        else if e = 'b' then (parseStringBody cs2).map (fun p => (Char.ofNat 8 :: p.1, p.2))
        else if e = 'f' then (parseStringBody cs2).map (fun p => (Char.ofNat 12 :: p.1, p.2))
        else if e = 'n' then (parseStringBody cs2).map (fun p => ('\n' :: p.1, p.2))
        else if e = 'r' then (parseStringBody cs2).map (fun p => ('\r' :: p.1, p.2))
        else if e = 't' then (parseStringBody cs2).map (fun p => ('\t' :: p.1, p.2))
        else if e = 'u' then
          match cs2 with
          | h1 :: h2 :: h3 :: h4 :: cs3 =>
            match hexVal h1, hexVal h2, hexVal h3, hexVal h4 with
            | some x1, some x2, some x3, some x4 =>
              (parseStringBody cs3).map
                (fun p => (Char.ofNat (4096 * x1 + 256 * x2 + 16 * x3 + x4) :: p.1, p.2))
            | _, _, _, _ => none
          | _ => none
        else none
    else if c.toNat < 32 then none
    else (parseStringBody cs).map (fun p => (c :: p.1, p.2))

/-- The exponent part of a JSON number token, appended to `tok`. -/
def parseExpPart (tok cs : List Char) : Option (List Char × List Char) :=
  match cs with
  | e :: r =>
    if e = 'e' ∨ e = 'E' then
      match r with
      | s :: r2 =>
        if s = '+' ∨ s = '-' then
          let ds := r2.takeWhile Char.isDigit
          if ds = [] then none else some (tok ++ e :: s :: ds, r2.drop ds.length)
        else
          let ds := r.takeWhile Char.isDigit
          if ds = [] then none else some (tok ++ e :: ds, r.drop ds.length)
      | [] => none
    else some (tok, cs)
  | [] => some (tok, cs)

/-- The fractional-and-exponent tail of a JSON number token: a `.` must be
followed by at least one digit. -/
def parseNumberTail (cs : List Char) : Option (List Char × List Char) :=
  match cs with
  | '.' :: r =>
    let ds := r.takeWhile Char.isDigit
    if ds = [] then none else parseExpPart ('.' :: ds) (r.drop ds.length)
  | _ => parseExpPart [] cs

/-- A JSON number token: optional minus, integer part without leading zeros,
optional fraction and exponent. Returns the token and the rest. -/
def parseNumberTok (cs : List Char) : Option (List Char × List Char) :=
  let (sgn, cs1) := match cs with | '-' :: r => (['-'], r) | _ => (([] : List Char), cs)
  match cs1 with
  | [] => none
  | d :: _ =>
    if d.isDigit then
      let intTok := if d = '0' then ['0'] else cs1.takeWhile Char.isDigit
      match parseNumberTail (cs1.drop intTok.length) with
      | some (tail, rest) => some (sgn ++ intTok ++ tail, rest)
      | none => none
    else none

/-- Does the list start with the given literal word? -/
def startsWithWord (w cs : List Char) : Bool :=
  w.isPrefixOf cs

mutual

/-- One JSON value, fuel-bounded (the fuel only bounds nesting; `jsonParse`
supplies more than enough). Leading whitespace is skipped. -/
def parseValueF : Nat → List Char → Option (JsVal × List Char)
  | 0, _ => none
  | Nat.succ fuel, cs0 =>
    match skipWs cs0 with
    | [] => none
    | c :: cs =>
      if c = '{' then
        match skipWs cs with
        | '}' :: r => some (JsVal.obj [], r)
        | cs1 => (parseMembersF fuel cs1).map (fun p => (JsVal.obj p.1, p.2))
      else if c = '[' then
        match skipWs cs with
        | ']' :: r => some (JsVal.arr [], r)
        | cs1 => (parseElemsF fuel cs1).map (fun p => (JsVal.arr p.1, p.2))
      else if c = '"' then
        (parseStringBody cs).map (fun p => (JsVal.str p.1, p.2))
      else if startsWithWord (toCL "true") (c :: cs) then
        some (JsVal.boolean true, (c :: cs).drop 4)
      else if startsWithWord (toCL "false") (c :: cs) then
        some (JsVal.boolean false, (c :: cs).drop 5)
      else if startsWithWord (toCL "null") (c :: cs) then
        some (JsVal.null, (c :: cs).drop 4)
      else
        (parseNumberTok (c :: cs)).map (fun p => (JsVal.num p.1, p.2))

/-- The members of a JSON object, positioned at the first key (not at `}`). -/
def parseMembersF : Nat → List Char → Option (List (List Char × JsVal) × List Char)
  | 0, _ => none
  | Nat.succ fuel, cs0 =>
    match skipWs cs0 with
    | '"' :: cs =>
      match parseStringBody cs with
      | none => none
      | some (key, cs1) =>
        match skipWs cs1 with
        | ':' :: cs2 =>
          match parseValueF fuel cs2 with
          | none => none
          | some (v, cs3) =>
            match skipWs cs3 with
            | ',' :: cs4 =>
              (parseMembersF fuel cs4).map (fun p => ((key, v) :: p.1, p.2))
            | '}' :: cs4 => some ([(key, v)], cs4)
            | _ => none
        | _ => none
    | _ => none

/-- The elements of a JSON array, positioned at the first element. -/
def parseElemsF : Nat → List Char → Option (List JsVal × List Char)
  | 0, _ => none
  | Nat.succ fuel, cs0 =>
    match parseValueF fuel cs0 with
    | none => none
    | some (v, cs1) =>
      match skipWs cs1 with
      | ',' :: cs2 => (parseElemsF fuel cs2).map (fun p => (v :: p.1, p.2))
      | ']' :: cs2 => some ([v], cs2)
      | _ => none

end

/-- Model of the external `JSON.parse` builtin: strict parse of a whole text
into a value, `none` when the text is not valid JSON. -/
def jsonParse (text : List Char) : Option JsVal :=
  match parseValueF (text.length + 1) text with
  | some (v, rest) => if skipWs rest = [] then some v else none
  | none => none

/-! ## The recovery parser (`parseJsonSafe`, `extractJsonObject`,
`parseJsonWithRecovery`), shared verbatim by all three server variants. -/

/-- `parseJsonSafe<T>`: a `JSON.parse` wrapped in try/catch. The caught
exception value is never inspected by the servers, so it is modelled as
`Unit`. -/
def parseJsonSafe (text : List Char) : Except Unit JsVal :=
  match jsonParse text with
  | some v => Except.ok v
  | none => Except.error ()

/-- Index of the first occurrence of a character, `none` when absent
(JS `indexOf` returns `-1` there). -/
def idxOfFirst (ch : Char) : List Char → Option Nat
  | [] => none
  | c :: cs => if c = ch then some 0 else (idxOfFirst ch cs).map (· + 1)

/-- Index of the last occurrence of a character, `none` when absent
(JS `lastIndexOf` returns `-1` there). -/
def idxOfLast (ch : Char) (cs : List Char) : Option Nat :=
  (idxOfFirst ch cs.reverse).map (fun i => cs.length - 1 - i)

/-- `extractJsonObject`: locate the first `{` and the last `}`; if both exist
and the last is strictly after the first, the slice from the first to the
last inclusive, else `none` (the source returns `null`). -/
def extractJsonObject (text : List Char) : Option (List Char) :=
  match idxOfFirst '{' text, idxOfLast '}' text with
  | some first, some last =>
    if last ≤ first then none
    else some ((text.drop first).take (last + 1 - first))
  | _, _ => none

/-- `parseJsonWithRecovery`: direct parse, else brace-delimited extraction
and a second strict parse; when no slice exists the direct failure is
returned. -/
def parseJsonWithRecovery (text : List Char) : Except Unit JsVal :=
  match parseJsonSafe text with
  | Except.ok v => Except.ok v
  | Except.error e =>
    match extractJsonObject text with
    | none => Except.error e
    | some extracted => parseJsonSafe extracted

/-- The hypothesis of the spec's extraction property: the text holds neither
brace character. -/
def braceFree (cs : List Char) : Prop := '{' ∉ cs ∧ '}' ∉ cs

/-! ## The Model Gateway (`callOpenRouter`, `callOpenRouterWithRetry`). -/

/-- The environment bindings the gateway reads. A missing binding is `none`;
JS truthiness also treats the empty string as unset. -/
structure Bindings where
  OPENROUTER_API_KEY : Option (List Char)
  OPENROUTER_MODEL : Option (List Char)
  OPENROUTER_REFERRER : Option (List Char)
  OPENROUTER_TITLE : Option (List Char)

/-- The ways one `callOpenRouter` attempt throws. -/
inductive GatewayError where
  | missingKey
  | httpError (status : Nat) (body : List Char)
  | missingContent
deriving DecidableEq

/-- What the external `fetch` of one attempt came back with: `ok` is the 2xx
flag, `bodyText` the error body read when not ok, `content` the value of
`data.choices[0].message.content` when it exists and is a string. A
`content` that exists but is not a string is modelled as `none`, since the
source treats the two alike. -/
structure FetchOutcome where
  ok : Bool
  status : Nat
  bodyText : List Char
  content : Option (List Char)

/-- Is the API key binding absent or the empty string (`if (!apiKey)`)? -/
def apiKeyMissing (env : Bindings) : Bool :=
  match env.OPENROUTER_API_KEY with
  | none => true
  | some k => k.isEmpty

/-- One `callOpenRouter` attempt: throws `missingKey` before any network
activity when the key is unset; otherwise a non-2xx response throws
`httpError`, a response without usable text content throws `missingContent`
(`if (!content || typeof content !== 'string')`, so an empty string also
throws), and otherwise the content is returned. -/
def callOpenRouter (env : Bindings) (outcome : FetchOutcome) :
    Except GatewayError (List Char) :=
  if apiKeyMissing env then Except.error GatewayError.missingKey
  else if outcome.ok = false then
    Except.error (GatewayError.httpError outcome.status outcome.bodyText)
  else
    match outcome.content with
    | none => Except.error GatewayError.missingContent
    | some c =>
      if c.isEmpty then Except.error GatewayError.missingContent
      else Except.ok c

/-- What one run of the retry loop did: its final result, how many attempts
it made, and the backoff delays (in ms) it slept between attempts, in
order. -/
structure RetryOutcome (ε α : Type) where
  result : Except ε α
  attemptsMade : Nat
  delaysMs : List Nat

/-- `const backoffMs = 800 * Math.pow(2, attempt)`. -/
def backoffMs (attempt : Nat) : Nat := 800 * 2 ^ attempt

/-- The retry loop of `callOpenRouterWithRetry`, with `attempts k` the
outcome of attempt number `k` (0-indexed): starting at attempt `a` with
`remaining` retries left, return on the first success; after a failure with
retries left, sleep `backoffMs a` and move to attempt `a + 1`; after a
failure with none left, the last error propagates. -/
def retryFrom (attempts : Nat → Except ε α) (a : Nat) :
    Nat → RetryOutcome ε α
  | 0 => { result := attempts a, attemptsMade := 1, delaysMs := [] }
  | Nat.succ remaining =>
    match attempts a with
    | Except.ok v => { result := Except.ok v, attemptsMade := 1, delaysMs := [] }
    | Except.error _ =>
      let rest := retryFrom attempts (a + 1) remaining
      { result := rest.result, attemptsMade := rest.attemptsMade + 1,
        delaysMs := backoffMs a :: rest.delaysMs }

/-- The default retry budget (`maxRetries = 2`). -/
def openRouterMaxRetries : Nat := 2

/-- `callOpenRouterWithRetry` at its default budget: at most
`openRouterMaxRetries + 1 = 3` attempts. -/
def callOpenRouterWithRetry (attempts : Nat → Except ε α) : RetryOutcome ε α :=
  retryFrom attempts 0 openRouterMaxRetries

/-! ## Response normalization (`normalized = { cards: (parsed.value.cards ??
[]).map(...) }` and the followup analogue of the dual-mode server). -/

/-- Lookup in a parsed JS object's field list. `JSON.parse` keeps the last
binding of a duplicated key, so the rightmost match wins. -/
def lookupLastField : List (List Char × JsVal) → List Char → Option JsVal
  | [], _ => none
  | (k', v') :: rest, k =>
    match lookupLastField rest k with
    | some r => some r
    | none => if k' = k then some v' else none

/-- JS property access `v.k`: throws on `null`, yields the field on an
object, `undefined` (here `none`) on every other value. -/
def jsGetField (v : JsVal) (k : List Char) : Except Unit (Option JsVal) :=
  match v with
  | JsVal.null => Except.error ()
  | JsVal.obj fields => Except.ok (lookupLastField fields k)
  | _ => Except.ok none

/-- Nullish coalescing `x ?? dflt`: the default replaces both `undefined`
(an absent field) and `null`. -/
def nullishOr (v : Option JsVal) (dflt : JsVal) : JsVal :=
  match v with
  | none => dflt
  | some JsVal.null => dflt
  | some x => x

/-- Calling `.map` (or `.filter`) on a JS value: only arrays have it; on any
other value the call throws a TypeError. -/
def asJsArray (v : JsVal) : Except Unit (List JsVal) :=
  match v with
  | JsVal.arr xs => Except.ok xs
  | _ => Except.error ()

/-- `(card) => ({ instruction: card.instruction })` as it reaches the HTTP
response: accessing `.instruction` on `null` throws; when the access yields
`undefined` the serialized card object drops the key (`JSON.stringify` omits
`undefined`-valued properties), so the card becomes `{}`. -/
def cardField (c : JsVal) : Except Unit JsVal :=
  match jsGetField c (toCL "instruction") with
  | Except.error _ => Except.error ()
  | Except.ok (some j) => Except.ok (JsVal.obj [(toCL "instruction", j)])
  | Except.ok none => Except.ok (JsVal.obj [])

/-- `.map(cardField)` over the cards array; the first throw aborts the map. -/
def mapCards : List JsVal → Except Unit (List JsVal)
  | [] => Except.ok []
  | c :: rest =>
    match cardField c with
    | Except.error _ => Except.error ()
    | Except.ok j =>
      match mapCards rest with
      | Except.error _ => Except.error ()
      | Except.ok js => Except.ok (j :: js)

/-- Initial-mode normalization, shared by all three server variants:
`(parsed.value.cards ?? []).map((card) => ({ instruction: card.instruction }))`. -/
def normalizeInitialCards (v : JsVal) : Except Unit (List JsVal) :=
  match jsGetField v (toCL "cards") with
  | Except.error _ => Except.error ()
  | Except.ok cardsOpt =>
    match asJsArray (nullishOr cardsOpt (JsVal.arr [])) with
    | Except.error _ => Except.error ()
    | Except.ok xs => mapCards xs

/-- The four fields of the dual-mode server's followup result. -/
structure FollowupNorm where
  completed : JsVal
  remaining : JsVal
  newTasks : JsVal
  feedback : JsVal

/-- Followup-mode normalization of the dual-mode server:
`completed: parsed.value.completed ?? []` and likewise for `remaining` and
`newTasks`, `feedback: parsed.value.feedback ?? ''` — the values are passed
through unmapped. -/
def normalizeFollowup (v : JsVal) : Except Unit FollowupNorm :=
  match jsGetField v (toCL "completed"), jsGetField v (toCL "remaining"),
        jsGetField v (toCL "newTasks"), jsGetField v (toCL "feedback") with
  | Except.ok c, Except.ok r, Except.ok n, Except.ok f =>
    Except.ok { completed := nullishOr c (JsVal.arr []),
                remaining := nullishOr r (JsVal.arr []),
                newTasks := nullishOr n (JsVal.arr []),
                feedback := nullishOr f (JsVal.str []) }
  | _, _, _, _ => Except.error ()

/-! ## HTTP responses of the servers. -/

/-- An exception reaching a handler's catch block. -/
inductive ThrownError where
  | gateway (e : GatewayError)
  | typeError
deriving DecidableEq

/-- The message string of a gateway error (`error.message` in the 500
response body). -/
def gatewayMessage : GatewayError → List Char
  | GatewayError.missingKey => toCL "OPENROUTER_API_KEY is not set"
  | GatewayError.httpError status body =>
    toCL "OpenRouter error " ++ toCL (toString status) ++ toCL ": " ++ body
  | GatewayError.missingContent => toCL "OpenRouter response missing content"

/-- The distinct HTTP responses the server handlers produce. `respStatus`
and `respBodyJson` below give each constructor's status code and JSON
body as written in the source. -/
inductive HttpResp where
  | ok200 (body : JsVal)
  | invalidContentType415
  | imageRequired400
  | followupMissing400
  | invalidPrevCards400
  | invalidMode400
  | invalidJson502 (raw : List Char)
  | heicFailed415
  | serverError500 (e : ThrownError)

/-- The status code of each response. -/
def respStatus : HttpResp → Nat
  | HttpResp.ok200 _ => 200
  | HttpResp.invalidContentType415 => 415
  | HttpResp.imageRequired400 => 400
  | HttpResp.followupMissing400 => 400
  | HttpResp.invalidPrevCards400 => 400
  | HttpResp.invalidMode400 => 400
  | HttpResp.invalidJson502 _ => 502
  | HttpResp.heicFailed415 => 415
  | HttpResp.serverError500 _ => 500

/-- The JSON body of each response, as written in the source; `none` only
for the 500 body built from a runtime TypeError, whose message text is not
modelled. -/
def respBodyJson : HttpResp → Option JsVal
  | HttpResp.ok200 body => some body
  | HttpResp.invalidContentType415 =>
    some (JsVal.obj [(toCL "error", JsVal.str (toCL "content-type must be multipart/form-data"))])
  | HttpResp.imageRequired400 =>
    some (JsVal.obj [(toCL "error", JsVal.str (toCL "image file is required"))])
  | HttpResp.followupMissing400 =>
    some (JsVal.obj [(toCL "error",
      JsVal.str (toCL "followup mode requires previousImage and previousCards"))])
  | HttpResp.invalidPrevCards400 =>
    some (JsVal.obj [(toCL "error", JsVal.str (toCL "invalid previousCards JSON"))])
  | HttpResp.invalidMode400 =>
    some (JsVal.obj [(toCL "error", JsVal.str (toCL "invalid mode"))])
  | HttpResp.invalidJson502 raw =>
    some (JsVal.obj [(toCL "error", JsVal.str (toCL "invalid_json_from_model")),
      (toCL "raw", JsVal.str raw)])
  | HttpResp.heicFailed415 =>
    some (JsVal.obj [(toCL "error", JsVal.str (toCL "heic_convert_failed"))])
  | HttpResp.serverError500 (ThrownError.gateway e) =>
    some (JsVal.obj [(toCL "error", JsVal.str (gatewayMessage e))])
  | HttpResp.serverError500 ThrownError.typeError => none

/-! ## The parse/repair stage of the single-mode server variants and
the parse stage of the dual-mode server. -/

/-- A parse stage's outcome: the response it produced and how many repair
calls (`callOpenRouterFixJson`) it issued along the way. -/
structure StageOut where
  resp : HttpResp
  repairCalls : Nat

/-- The single-mode 200 response (`{ cards }`, no `mode` field), or the 500
the outer catch produces when normalization throws. -/
def respondInitialLegacy (v : JsVal) : HttpResp :=
  match normalizeInitialCards v with
  | Except.ok cards => HttpResp.ok200 (JsVal.obj [(toCL "cards", JsVal.arr cards)])
  | Except.error _ => HttpResp.serverError500 ThrownError.typeError

/-- The single-mode servers' handling of the generation call's raw text:
two-stage parse; on failure exactly one `callOpenRouterFixJson` call
(`repairOutcome` its result — an error there propagates to the catch block
as a 500), re-running the two-stage parse on the repaired text; only when
that also fails, `502 { error: "invalid_json_from_model", raw }` with the
original raw text. -/
def repairStageSingle (raw : List Char)
    (repairOutcome : Except GatewayError (List Char)) : StageOut :=
  match parseJsonWithRecovery raw with
  | Except.ok v => { resp := respondInitialLegacy v, repairCalls := 0 }
  | Except.error _ =>
    match repairOutcome with
    | Except.error e =>
      { resp := HttpResp.serverError500 (ThrownError.gateway e), repairCalls := 1 }
    | Except.ok fixed =>
      match parseJsonWithRecovery fixed with
      | Except.ok v => { resp := respondInitialLegacy v, repairCalls := 1 }
      | Except.error _ => { resp := HttpResp.invalidJson502 raw, repairCalls := 1 }

/-- The dual-mode 200 response for initial mode
(`{ mode: 'initial', cards }`). -/
def respondInitialDual (v : JsVal) : HttpResp :=
  match normalizeInitialCards v with
  | Except.ok cards =>
    HttpResp.ok200 (JsVal.obj [(toCL "mode", JsVal.str (toCL "initial")),
      (toCL "cards", JsVal.arr cards)])
  | Except.error _ => HttpResp.serverError500 ThrownError.typeError

/-- The dual-mode 200 response for followup mode. -/
def respondFollowupDual (v : JsVal) : HttpResp :=
  match normalizeFollowup v with
  | Except.ok r =>
    HttpResp.ok200 (JsVal.obj [(toCL "mode", JsVal.str (toCL "followup")),
      (toCL "completed", r.completed), (toCL "remaining", r.remaining),
      (toCL "newTasks", r.newTasks), (toCL "feedback", r.feedback)])
  | Except.error _ => HttpResp.serverError500 ThrownError.typeError

/-- The dual-mode server's handling of the initial generation's raw text:
two-stage parse, and on failure the 502 immediately — it issues no repair
call. -/
def initialStageDual (raw : List Char) : StageOut :=
  match parseJsonWithRecovery raw with
  | Except.ok v => { resp := respondInitialDual v, repairCalls := 0 }
  | Except.error _ => { resp := HttpResp.invalidJson502 raw, repairCalls := 0 }

/-- The dual-mode server's handling of the followup generation's raw text:
two-stage parse, and on failure the 502 immediately — no repair call. -/
def followupStageDual (raw : List Char) : StageOut :=
  match parseJsonWithRecovery raw with
  | Except.ok v => { resp := respondFollowupDual v, repairCalls := 0 }
  | Except.error _ => { resp := HttpResp.invalidJson502 raw, repairCalls := 0 }

/-! ## The dual-mode server's request handler
(`app.post('/api/analysis/room-photo')` of the followup-capable variant). -/

/-- One field of a parsed multipart body: a string or a file. -/
inductive FormValue where
  | str (s : List Char)
  | file (name : List Char) (ftype : List Char) (content : List Char)

/-- The multipart body fields the handler reads, each possibly absent. -/
structure FormDataBody where
  image : Option FormValue
  locale : Option FormValue
  mode : Option FormValue
  previousImage : Option FormValue
  previousCards : Option FormValue

/-- An incoming request: its content-type header (absent modelled as
`none`; the source replaces a missing header by `''`) and its parsed body. -/
structure DualRequest where
  contentType : Option (List Char)
  body : FormDataBody

/-- JS `hay.includes(needle)`: does `needle` occur contiguously in `hay`? -/
def hasInfix (needle : List Char) : List Char → Bool
  | [] => needle.isEmpty
  | c :: t => needle.isPrefixOf (c :: t) || hasInfix needle t

/-- JS `hay.endsWith(needle)`. -/
def hasSuffix (needle hay : List Char) : Bool :=
  needle.reverse.isPrefixOf hay.reverse

/-- `(c.req.header('content-type') ?? '').includes('multipart/form-data')`. -/
def multipartOk (req : DualRequest) : Bool :=
  hasInfix (toCL "multipart/form-data") (req.contentType.getD [])

/-- `typeof x === 'string' ? x : undefined` on a form field. -/
def asFormString : Option FormValue → Option (List Char)
  | some (FormValue.str s) => some s
  | _ => none

/-- JS falsiness of a possibly-undefined string (`!x`): true for
`undefined` and for the empty string. -/
def jsFalsyStr : Option (List Char) → Bool
  | none => true
  | some s => s.isEmpty

/-- What the dual-mode handler did with one request. -/
structure HandlerResult where
  resp : HttpResp
  genCalls : Nat

/-- The initial branch's response given the outcome `gen` of its
`callOpenRouterWithRetry` call (an error there reaches the catch block as a
500). -/
def initialRespOf (gen : Except GatewayError (List Char)) : HttpResp :=
  match gen with
  | Except.error e => HttpResp.serverError500 (ThrownError.gateway e)
  | Except.ok raw => (initialStageDual raw).resp

/-- The followup branch's response given the outcome of its generation
call. -/
def followupRespOf (gen : Except GatewayError (List Char)) : HttpResp :=
  match gen with
  | Except.error e => HttpResp.serverError500 (ThrownError.gateway e)
  | Except.ok raw => (followupStageDual raw).resp

/-- The dual-mode handler, with `gen` the outcome of the generation call it
would make: content-type gate; body fields read with
`typeof === 'string'` coercions and `mode` defaulting to `'initial'`; the
image-file gate; then the initial branch, the followup branch (its
`previousImage`/`previousCards` presence check, the `JSON.parse` of
`previousCards` mapped to a 400 on throw, and the `previousCards.map` in
the message builder throwing to the catch block on a non-array), or
`400 { error: 'invalid mode' }`. `genCalls` counts the
`callOpenRouterWithRetry` invocations made. -/
def dualHandler (req : DualRequest) (gen : Except GatewayError (List Char)) :
    HandlerResult :=
  if multipartOk req = false then
    { resp := HttpResp.invalidContentType415, genCalls := 0 }
  else
    let mode := (asFormString req.body.mode).getD (toCL "initial")
    let prevImg := asFormString req.body.previousImage
    let prevCards := asFormString req.body.previousCards
    match req.body.image with
    | none => { resp := HttpResp.imageRequired400, genCalls := 0 }
    | some (FormValue.str _) => { resp := HttpResp.imageRequired400, genCalls := 0 }
    | some (FormValue.file _ _ _) =>
      if mode = toCL "initial" then
        { resp := initialRespOf gen, genCalls := 1 }
      else if mode = toCL "followup" then
        if jsFalsyStr prevImg || jsFalsyStr prevCards then
          { resp := HttpResp.followupMissing400, genCalls := 0 }
        else
          match jsonParse (prevCards.getD []) with
          | none => { resp := HttpResp.invalidPrevCards400, genCalls := 0 }
          | some pv =>
            match asJsArray pv with
            | Except.error _ =>
              { resp := HttpResp.serverError500 ThrownError.typeError, genCalls := 0 }
            | Except.ok _ => { resp := followupRespOf gen, genCalls := 1 }
      else { resp := HttpResp.invalidMode400, genCalls := 0 }

/-! ## The client upload transport (`uploadAndAnalyze` of the camera guide). -/

/-- The error outcomes of the client's upload call: a non-2xx response's
text (or the generic server-error message), any exception thrown while
reading or shaping the body, and the zero-cards error
(`'カードが生成されませんでした'` — NoCardsGenerated). -/
inductive ClientErr where
  | serverError (status : Nat) (text : List Char)
  | thrown
  | noCardsGenerated

/-- `(data.cards ?? []).filter((card) => typeof card?.instruction ===
'string').map(...)`: accessing `data.cards` on `null` data throws; the
optional chain makes a `null` card filter out rather than throw; only cards
that are objects with a string `instruction` survive, reduced to their
instruction strings. -/
def clientCards (data : JsVal) : Except Unit (List (List Char)) :=
  match jsGetField data (toCL "cards") with
  | Except.error _ => Except.error ()
  | Except.ok cardsOpt =>
    match asJsArray (nullishOr cardsOpt (JsVal.arr [])) with
    | Except.error _ => Except.error ()
    | Except.ok xs =>
      Except.ok (xs.filterMap (fun c =>
        match c with
        | JsVal.obj fields =>
          match lookupLastField fields (toCL "instruction") with
          | some (JsVal.str s) => some s
          | _ => none
        | _ => none))

/-- The client's handling of the server response: non-2xx throws the
response text; a 2xx body is JSON-parsed (`response.json()`, rejecting on
invalid JSON); the filtered card list is built; an empty list throws
NoCardsGenerated; otherwise the instruction strings are returned. -/
def uploadAndAnalyze (ok : Bool) (status : Nat) (bodyText : List Char) :
    Except ClientErr (List (List Char)) :=
  if ok = false then Except.error (ClientErr.serverError status bodyText)
  else
    match jsonParse bodyText with
    | none => Except.error ClientErr.thrown
    | some data =>
      match clientCards data with
      | Except.error _ => Except.error ClientErr.thrown
      | Except.ok cards =>
        if cards.isEmpty then Except.error ClientErr.noCardsGenerated
        else Except.ok cards

/-! ## The node server variant's HEIC conversion
(`sharp(...).jpeg(...)` with a `heic-convert` fallback). -/

/-- `fileType.includes('heic') || fileType.includes('heif') ||
fileName.endsWith('.heic') || fileName.endsWith('.heif')`, the file name
lowercased first. -/
def isHeicUpload (fileType fileName : List Char) : Bool :=
  hasInfix (toCL "heic") fileType || hasInfix (toCL "heif") fileType ||
  hasSuffix (toCL ".heic") (fileName.map Char.toLower) ||
  hasSuffix (toCL ".heif") (fileName.map Char.toLower)

/-- What the image-preparation step of the node server's handler did:
either an early response (the request never reaches the model) or the
buffer it forwards, plus which conversion paths ran. `primary` is the
outcome of the `sharp` JPEG re-encode, `secondary` that of the
`heic-convert` pure-software decoder. -/
structure NodeStageResult where
  resp? : Option HttpResp
  forwarded : Option (List Char)
  primaryTried : Bool
  secondaryTried : Bool

/-- The HEIC section of the node server's handler: non-HEIC uploads are
forwarded untouched; a HEIC upload runs the primary `sharp` conversion,
falls back to the secondary `heic-convert` decoder only when the primary
throws, and only when both throw responds
`415 { error: 'heic_convert_failed' }` without calling the model. -/
def nodeImageStage (fileType fileName buffer : List Char)
    (primary secondary : Except Unit (List Char)) : NodeStageResult :=
  if isHeicUpload fileType fileName then
    match primary with
    | Except.ok b =>
      { resp? := none, forwarded := some b, primaryTried := true, secondaryTried := false }
    | Except.error _ =>
      match secondary with
      | Except.ok b =>
        { resp? := none, forwarded := some b, primaryTried := true, secondaryTried := true }
      | Except.error _ =>
        { resp? := some HttpResp.heicFailed415, forwarded := none,
          primaryTried := true, secondaryTried := true }
  else
    { resp? := none, forwarded := some buffer, primaryTried := false, secondaryTried := false }

/-! ## Concrete inputs used by witnesses and counterexamples. -/

/-- An attempt oracle failing twice and succeeding on the third attempt. -/
def c1Attempts : Nat → Except (List Char) (List Char) :=
  fun k => if k = 2 then Except.ok (toCL "content") else Except.error (toCL "boom")

/-- An environment with no `OPENROUTER_API_KEY` binding. -/
def envNoKey : Bindings :=
  { OPENROUTER_API_KEY := none, OPENROUTER_MODEL := none,
    OPENROUTER_REFERRER := none, OPENROUTER_TITLE := none }

/-- A fetch outcome that would succeed, showing the missing-key error is
thrown before the network is consulted. -/
def c4Outcome : FetchOutcome :=
  { ok := true, status := 200, bodyText := [], content := some (toCL "x") }

/-- A followup card the model returned with an extra key beside
`instruction`. -/
def c6CardExtra : JsVal :=
  JsVal.obj [(toCL "instruction", JsVal.str (toCL "x")), (toCL "extra", JsVal.str (toCL "y"))]

/-- A parsed followup model output whose `completed` array holds that card. -/
def c6Parsed : JsVal := JsVal.obj [(toCL "completed", JsVal.arr [c6CardExtra])]

/-- A multipart followup-mode body with no image file and no previous
state. -/
def c7NoImgBody : FormDataBody :=
  { image := none, locale := none,
    mode := some (FormValue.str (toCL "followup")),
    previousImage := none, previousCards := none }

/-- The request carrying that body. -/
def c7NoImgReq : DualRequest :=
  { contentType := some (toCL "multipart/form-data"), body := c7NoImgBody }

/-- A multipart followup-mode body with an image file and `previousCards`
but no `previousImage`. -/
def c7Body : FormDataBody :=
  { image := some (FormValue.file (toCL "room.jpg") (toCL "image/jpeg") (toCL "JPEG")),
    locale := none, mode := some (FormValue.str (toCL "followup")),
    previousImage := none, previousCards := some (FormValue.str (toCL "[]")) }

/-- The request carrying that body. -/
def c7Req : DualRequest :=
  { contentType := some (toCL "multipart/form-data"), body := c7Body }

/-- A 200 response body whose card list is empty. -/
def c8Body : List Char := '{' :: (toCL "\"cards\":[]" ++ ['}'])

/-- A multipart body with no image file and no `mode` field. -/
def c10NoImgBody : FormDataBody :=
  { image := none, locale := none, mode := none,
    previousImage := none, previousCards := none }

/-- The request carrying that body. -/
def c10NoImgReq : DualRequest :=
  { contentType := some (toCL "multipart/form-data"), body := c10NoImgBody }

/-- A multipart body with an image file and no `mode` field. -/
def c10ImgBody : FormDataBody :=
  { image := some (FormValue.file (toCL "room.jpg") (toCL "image/jpeg") (toCL "JPEG")),
    locale := none, mode := none, previousImage := none, previousCards := none }

/-- The request carrying that body. -/
def c10ImgReq : DualRequest :=
  { contentType := some (toCL "multipart/form-data"), body := c10ImgBody }

/-! ## Helper lemmas. -/

/-- `indexOf` finds the first occurrence: prepending occurrence-free text
shifts the index by its length. -/
theorem idxOfFirst_append_no_occ (pre rest : List Char) (c : Char) (h : c ∉ pre) :
    idxOfFirst c (pre ++ c :: rest) = some pre.length := by
  induction pre with
  | nil => simp [idxOfFirst]
  | cons a t ih =>
    have ha : ¬ a = c := by
      intro hc
      exact h (hc ▸ List.mem_cons_self a t)
    have ih' := ih (fun hm => h (List.mem_cons_of_mem a hm))
    simp only [List.cons_append, idxOfFirst, ha, if_false]
    rw [show t.append (c :: rest) = t ++ c :: rest from rfl, ih']
    simp

/-- Taking one element past a list's length into an append keeps exactly one
element of the tail. -/
theorem take_append_cons (l : List Char) (x : Char) (r : List Char) :
    (l ++ x :: r).take (l.length + 1) = l ++ [x] := by
  induction l with
  | nil => simp
  | cons a t ih => simpa [List.take_succ_cons] using ih

/-- When the leading text holds no `{` and the trailing text no `}`, the
brace-delimited extraction recovers exactly the enclosed `{...}` slice. -/
theorem extractJsonObject_between (pre body suf : List Char)
    (hpre : '{' ∉ pre) (hsuf : '}' ∉ suf) :
    extractJsonObject (pre ++ '{' :: (body ++ '}' :: suf)) =
      some ('{' :: (body ++ ['}'])) := by
  have hfirst : idxOfFirst '{' (pre ++ '{' :: (body ++ '}' :: suf)) = some pre.length :=
    idxOfFirst_append_no_occ pre _ '{' hpre
  have hrev : (pre ++ '{' :: (body ++ '}' :: suf)).reverse
      = suf.reverse ++ '}' :: (body.reverse ++ '{' :: pre.reverse) := by
    simp
  have hsufrev : '}' ∉ suf.reverse := by simpa using hsuf
  have hlast : idxOfLast '}' (pre ++ '{' :: (body ++ '}' :: suf))
      = some (pre.length + body.length + 1) := by
    unfold idxOfLast
    rw [hrev, idxOfFirst_append_no_occ suf.reverse _ '}' hsufrev]
    simp [List.length_append]
    omega
  unfold extractJsonObject
  rw [hfirst, hlast]
  have hle : ¬ (pre.length + body.length + 1 ≤ pre.length) := by omega
  simp only [hle, if_false]
  rw [List.drop_left]
  have harith : pre.length + body.length + 1 + 1 - pre.length = body.length + 1 + 1 := by omega
  rw [harith, List.take_succ_cons, take_append_cons]

/-- A mapped card is the empty object or a single-`instruction` object. -/
theorem cardField_shape (c : JsVal) (j : JsVal) (h : cardField c = Except.ok j) :
    j = JsVal.obj [] ∨ ∃ i, j = JsVal.obj [(toCL "instruction", i)] := by
  unfold cardField at h
  cases hg : jsGetField c (toCL "instruction") with
  | error e => rw [hg] at h; cases h
  | ok o =>
    rw [hg] at h
    cases o with
    | none => injection h with h; exact Or.inl h.symm
    | some i => injection h with h; exact Or.inr ⟨i, h.symm⟩

/-- Every card the initial-mode map emits has that shape. -/
theorem mapCards_shape (xs : List JsVal) :
    ∀ cards, mapCards xs = Except.ok cards →
      ∀ c ∈ cards, c = JsVal.obj [] ∨ ∃ i, c = JsVal.obj [(toCL "instruction", i)] := by
  induction xs with
  | nil =>
    intro cards h
    injection h with h
    subst h
    intro c hc
    cases hc
  | cons a t ih =>
    intro cards h
    unfold mapCards at h
    cases hca : cardField a with
    | error e => rw [hca] at h; cases h
    | ok j =>
      rw [hca] at h
      cases hmt : mapCards t with
      | error e => rw [hmt] at h; cases h
      | ok js =>
        rw [hmt] at h
        injection h with h
        subst h
        intro c hc
        rcases List.mem_cons.mp hc with hcj | hcjs
        · subst hcj
          exact cardField_shape a c hca
        · exact ih js hmt c hcjs

/-- Nullish coalescing leaves a non-null present value unchanged. -/
theorem nullishOr_of_ne_null (x d : JsVal) (h : x ≠ JsVal.null) :
    nullishOr (some x) d = x := by
  cases x <;> simp [nullishOr] <;> exact absurd rfl h

/-- The initial-mode 200/500 responder never yields the invalid-mode 400. -/
theorem respondInitialDual_ne_invalidMode (v : JsVal) :
    respondInitialDual v ≠ HttpResp.invalidMode400 := by
  unfold respondInitialDual
  cases normalizeInitialCards v <;> simp

/-- The initial branch never yields the invalid-mode 400. -/
theorem initialRespOf_ne_invalidMode (gen : Except GatewayError (List Char)) :
    initialRespOf gen ≠ HttpResp.invalidMode400 := by
  unfold initialRespOf
  cases gen with
  | error e => simp
  | ok raw =>
    unfold initialStageDual
    cases hp : parseJsonWithRecovery raw with
    | ok v =>
      dsimp only
      rw [hp]
      simpa using respondInitialDual_ne_invalidMode v
    | error e =>
      dsimp only
      rw [hp]
      simp

/-- The followup-mode 200/500 responder never yields the invalid-mode 400. -/
theorem respondFollowupDual_ne_invalidMode (v : JsVal) :
    respondFollowupDual v ≠ HttpResp.invalidMode400 := by
  unfold respondFollowupDual
  cases normalizeFollowup v <;> simp

/-- The followup branch never yields the invalid-mode 400. -/
theorem followupRespOf_ne_invalidMode (gen : Except GatewayError (List Char)) :
    followupRespOf gen ≠ HttpResp.invalidMode400 := by
  unfold followupRespOf
  cases gen with
  | error e => simp
  | ok raw =>
    unfold followupStageDual
    cases hp : parseJsonWithRecovery raw with
    | ok v =>
      dsimp only
      rw [hp]
      simpa using respondFollowupDual_ne_invalidMode v
    | error e =>
      dsimp only
      rw [hp]
      simp

/-- A form field that reads back as a string is that string field. -/
theorem asFormString_eq_some (o : Option FormValue) (s : List Char)
    (h : asFormString o = some s) : o = some (FormValue.str s) := by
  cases o with
  | none => cases h
  | some fv =>
    cases fv with
    | str s' =>
      injection h with h
      rw [h]
    | file n t c => cases h

/-! ## The claims. -/

/-- C1: `callOpenRouterWithRetry` makes at most 3 total attempts; each delay
slept after failed attempt `k < 2` is `800 * 2^k` ms; a run failing on the
first two attempts and succeeding on the third returns that success after
sleeping 800 + 1600 = 2400 ms; and when all three attempts throw, the final
attempt's error propagates unchanged. -/
theorem C1_retry_policy (attempts : Nat → Except (List Char) (List Char)) :
    (callOpenRouterWithRetry attempts).attemptsMade ≤ 3 ∧
    (callOpenRouterWithRetry attempts).delaysMs =
      (List.range ((callOpenRouterWithRetry attempts).attemptsMade - 1)).map backoffMs ∧
    (∀ e0 e1 v, attempts 0 = Except.error e0 → attempts 1 = Except.error e1 →
      attempts 2 = Except.ok v →
      (callOpenRouterWithRetry attempts).result = Except.ok v ∧
      (callOpenRouterWithRetry attempts).delaysMs = [800, 1600] ∧
      2400 ≤ (callOpenRouterWithRetry attempts).delaysMs.sum) ∧
    (∀ e0 e1 e2, attempts 0 = Except.error e0 → attempts 1 = Except.error e1 →
      attempts 2 = Except.error e2 →
      (callOpenRouterWithRetry attempts).result = Except.error e2) := by
  cases h0 : attempts 0 with
  | ok v0 =>
    simp [callOpenRouterWithRetry, openRouterMaxRetries, retryFrom, h0]
  | error e0 =>
    cases h1 : attempts 1 with
    | ok v1 =>
      simp [callOpenRouterWithRetry, openRouterMaxRetries, retryFrom, h0, h1, backoffMs,
        List.range_succ]
    | error e1 =>
      cases h2 : attempts 2 with
      | ok v2 =>
        simp [callOpenRouterWithRetry, openRouterMaxRetries, retryFrom, h0, h1, h2,
          backoffMs, List.range_succ]
      | error e2 =>
        simp [callOpenRouterWithRetry, openRouterMaxRetries, retryFrom, h0, h1, h2,
          backoffMs, List.range_succ]

/-- C1 witness: the oracle failing twice and succeeding on attempt 3 returns
the success with delays [800, 1600]. -/
theorem C1_retry_policy_witness :
    (callOpenRouterWithRetry c1Attempts).result = Except.ok (toCL "content") ∧
    (callOpenRouterWithRetry c1Attempts).delaysMs = [800, 1600] ∧
    2400 ≤ (callOpenRouterWithRetry c1Attempts).delaysMs.sum :=
  (C1_retry_policy c1Attempts).2.2.1 (toCL "boom") (toCL "boom") (toCL "content") rfl rfl rfl

/-- C2 (amended): when the surrounding text makes the whole string invalid
JSON, `parseJsonWithRecovery` on `pre ++ "{" ++ body ++ "}" ++ suf` with
brace-free `pre`/`suf` returns exactly the strict parse of
`"{" ++ body ++ "}"`. -/
theorem C2_extract_recovery (pre body suf : List Char) (v : JsVal)
    (hpre : braceFree pre) (hsuf : braceFree suf)
    (hinner : jsonParse ('{' :: (body ++ ['}'])) = some v)
    (hdirect : jsonParse (pre ++ '{' :: (body ++ '}' :: suf)) = none) :
    parseJsonWithRecovery (pre ++ '{' :: (body ++ '}' :: suf)) = Except.ok v := by
  unfold parseJsonWithRecovery parseJsonSafe
  rw [hdirect, extractJsonObject_between pre body suf hpre.1 hsuf.2]
  simp [hinner]

/-- C2 counterexample: `T = "\"{}\""` is of the claim's form with
`pre = suf = "\""` (brace-free) and empty `body`, and `"{}"` is valid JSON;
yet the recovery parse succeeds by DirectParse and returns the JSON string
`"{}"`, not the object `{}`. -/
theorem C2_counterexample :
    parseJsonWithRecovery (['"'] ++ '{' :: (([] : List Char) ++ '}' :: ['"'])) =
      Except.ok (JsVal.str ['{', '}']) ∧
    jsonParse ('{' :: (([] : List Char) ++ ['}'])) = some (JsVal.obj []) ∧
    braceFree ['"'] ∧
    JsVal.str ['{', '}'] ≠ JsVal.obj [] := by
  refine ⟨rfl, rfl, ⟨by decide, by decide⟩, ?_⟩
  intro h
  cases h

/-- C2 witness: prose around a JSON object is stripped and the object
recovered. -/
theorem C2_extract_recovery_witness :
    parseJsonWithRecovery (toCL "Sure: " ++ '{' :: (toCL "\"cards\":[]" ++ '}' :: [])) =
      Except.ok (JsVal.obj [(toCL "cards", JsVal.arr [])]) :=
  C2_extract_recovery (toCL "Sure: ") (toCL "\"cards\":[]") [] (JsVal.obj [(toCL "cards", JsVal.arr [])])
    ⟨by decide, by decide⟩ ⟨by decide, by decide⟩ rfl rfl

/-- C3 (amended): the single-mode servers issue exactly one repair call when
the raw text fails both parse stages, re-run the two-stage parse on the
repaired text, and return the 502 only if that also fails (a repair call
that itself throws surfaces as a 500); the dual-mode server issues no
repair call and returns the 502 immediately on parse failure, in both its
modes. -/
theorem C3_repair_policy (raw : List Char) (repairOutcome : Except GatewayError (List Char)) :
    (∀ v, parseJsonWithRecovery raw = Except.ok v →
      repairStageSingle raw repairOutcome =
        { resp := respondInitialLegacy v, repairCalls := 0 }) ∧
    (parseJsonWithRecovery raw = Except.error () →
      (repairStageSingle raw repairOutcome).repairCalls = 1 ∧
      (∀ fixed, repairOutcome = Except.ok fixed →
        parseJsonWithRecovery fixed = Except.error () →
        (repairStageSingle raw repairOutcome).resp = HttpResp.invalidJson502 raw) ∧
      (∀ fixed v, repairOutcome = Except.ok fixed →
        parseJsonWithRecovery fixed = Except.ok v →
        (repairStageSingle raw repairOutcome).resp = respondInitialLegacy v) ∧
      (∀ e, repairOutcome = Except.error e →
        (repairStageSingle raw repairOutcome).resp =
          HttpResp.serverError500 (ThrownError.gateway e))) ∧
    (initialStageDual raw).repairCalls = 0 ∧
    (followupStageDual raw).repairCalls = 0 ∧
    (parseJsonWithRecovery raw = Except.error () →
      (initialStageDual raw).resp = HttpResp.invalidJson502 raw ∧
      (followupStageDual raw).resp = HttpResp.invalidJson502 raw) := by
  cases hp : parseJsonWithRecovery raw with
  | ok v =>
    refine ⟨?_, ?_, ?_, ?_, ?_⟩ <;>
      simp [repairStageSingle, initialStageDual, followupStageDual, hp]
  | error e =>
    cases e
    cases hr : repairOutcome with
    | ok fixed =>
      cases hf : parseJsonWithRecovery fixed with
      | ok v =>
        refine ⟨?_, ?_, ?_, ?_, ?_⟩ <;>
          simp [repairStageSingle, initialStageDual, followupStageDual, hp, hf] <;>
          (intro f1 v1 he hff
           subst he
           rw [hf] at hff
           first
           | (injection hff with hv; rw [hv])
           | simp at hff)
      | error e2 =>
        cases e2
        refine ⟨?_, ?_, ?_, ?_, ?_⟩ <;>
          simp [repairStageSingle, initialStageDual, followupStageDual, hp, hf] <;>
          (intro f1 v1 he hff
           subst he
           rw [hf] at hff
           first
           | (injection hff with hv; rw [hv])
           | simp at hff)
    | error e =>
      refine ⟨?_, ?_, ?_, ?_, ?_⟩ <;>
        simp [repairStageSingle, initialStageDual, followupStageDual, hp]

/-- C3 counterexample: on unparseable raw text the dual-mode server's
initial stage answers 502 invalid_json_from_model having made zero repair
calls, while the claim demands exactly one in every variant. -/
theorem C3_counterexample :
    parseJsonWithRecovery (toCL "garbled") = Except.error () ∧
    initialStageDual (toCL "garbled") =
      { resp := HttpResp.invalidJson502 (toCL "garbled"), repairCalls := 0 } ∧
    (0 : Nat) ≠ 1 := ⟨rfl, rfl, by decide⟩

/-- C3 witness: a single-mode server with unparseable raw text makes exactly
one repair call. -/
theorem C3_repair_policy_witness :
    (repairStageSingle (toCL "oops")
      (Except.ok ('{' :: (toCL "\"cards\":[]" ++ ['}'])))).repairCalls = 1 :=
  ((C3_repair_policy (toCL "oops") (Except.ok ('{' :: (toCL "\"cards\":[]" ++ ['}'])))).2.1 rfl).1

/-- C4 (amended): with the API key absent, every attempt fails immediately
with the missing-key error and it surfaces as a 500 response — but the
retry wrapper treats it like any other error: it makes 3 attempts with
backoff delays of 800 ms and 1600 ms before the error propagates. -/
theorem C4_missing_key_retried (env : Bindings) (outcomes : Nat → FetchOutcome)
    (h : apiKeyMissing env = true) :
    callOpenRouterWithRetry (fun k => callOpenRouter env (outcomes k)) =
      { result := Except.error GatewayError.missingKey, attemptsMade := 3,
        delaysMs := [800, 1600] } ∧
    initialRespOf (Except.error GatewayError.missingKey) =
      HttpResp.serverError500 (ThrownError.gateway GatewayError.missingKey) ∧
    respStatus (HttpResp.serverError500 (ThrownError.gateway GatewayError.missingKey)) = 500 := by
  have hcall : ∀ o, callOpenRouter env o = Except.error GatewayError.missingKey := by
    intro o
    simp [callOpenRouter, h]
  refine ⟨?_, rfl, rfl⟩
  simp [callOpenRouterWithRetry, openRouterMaxRetries, retryFrom, hcall, backoffMs]

/-- C4 counterexample: with no API key the gateway still makes 3 attempts
and sleeps 2400 ms of backoff, contradicting "no retry attempts and no
backoff delay". -/
theorem C4_counterexample :
    (callOpenRouterWithRetry (fun _ => callOpenRouter envNoKey c4Outcome)).attemptsMade = 3 ∧
    (callOpenRouterWithRetry (fun _ => callOpenRouter envNoKey c4Outcome)).delaysMs.sum = 2400 ∧
    (callOpenRouterWithRetry (fun _ => callOpenRouter envNoKey c4Outcome)).result =
      Except.error GatewayError.missingKey ∧
    (3 : Nat) ≠ 1 := ⟨rfl, rfl, rfl, by decide⟩

/-- C4 witness: the amended behaviour at the concrete keyless environment. -/
theorem C4_missing_key_retried_witness :
    callOpenRouterWithRetry (fun k => callOpenRouter envNoKey ((fun _ => c4Outcome) k)) =
      { result := Except.error GatewayError.missingKey, attemptsMade := 3,
        delaysMs := [800, 1600] } :=
  (C4_missing_key_retried envNoKey (fun _ => c4Outcome) rfl).1

/-- C5: normalization is total on parsed objects — an absent `cards`
(initial mode) yields the empty array, absent `completed`/`remaining`/
`newTasks` (followup mode) each yield the empty array, an absent `feedback`
yields the empty string, never null and never throwing. -/
theorem C5_normalization_total (fields : List (List Char × JsVal)) :
    (lookupLastField fields (toCL "cards") = none →
      normalizeInitialCards (JsVal.obj fields) = Except.ok []) ∧
    ∃ r, normalizeFollowup (JsVal.obj fields) = Except.ok r ∧
      (lookupLastField fields (toCL "completed") = none → r.completed = JsVal.arr []) ∧
      (lookupLastField fields (toCL "remaining") = none → r.remaining = JsVal.arr []) ∧
      (lookupLastField fields (toCL "newTasks") = none → r.newTasks = JsVal.arr []) ∧
      (lookupLastField fields (toCL "feedback") = none → r.feedback = JsVal.str []) := by
  constructor
  · intro h
    simp [normalizeInitialCards, jsGetField, h, nullishOr, asJsArray, mapCards]
  · refine ⟨_, rfl, ?_, ?_, ?_, ?_⟩ <;>
      (intro h; simp [h, nullishOr])

/-- C5 witness: the empty parsed object normalizes to the empty card list. -/
theorem C5_normalization_total_witness :
    normalizeInitialCards (JsVal.obj []) = Except.ok [] :=
  (C5_normalization_total []).1 rfl

/-- C6 (amended): initial-mode normalization emits cards holding at most
the `instruction` key (exactly it when the source card has one; extra keys
discarded), but followup-mode normalization passes `completed`/`remaining`/
`newTasks` through exactly as parsed, keeping any extra keys. -/
theorem C6_field_mapping (v : JsVal) (fields : List (List Char × JsVal)) :
    (∀ cards, normalizeInitialCards v = Except.ok cards →
      ∀ c ∈ cards, c = JsVal.obj [] ∨ ∃ i, c = JsVal.obj [(toCL "instruction", i)]) ∧
    (∀ r, normalizeFollowup (JsVal.obj fields) = Except.ok r →
      (∀ x, lookupLastField fields (toCL "completed") = some x → x ≠ JsVal.null →
        r.completed = x) ∧
      (∀ x, lookupLastField fields (toCL "remaining") = some x → x ≠ JsVal.null →
        r.remaining = x) ∧
      (∀ x, lookupLastField fields (toCL "newTasks") = some x → x ≠ JsVal.null →
        r.newTasks = x)) := by
  constructor
  · intro cards h
    unfold normalizeInitialCards at h
    cases hg : jsGetField v (toCL "cards") with
    | error e => rw [hg] at h; cases h
    | ok o =>
      rw [hg] at h
      dsimp only at h
      cases ha : asJsArray (nullishOr o (JsVal.arr [])) with
      | error e => rw [ha] at h; cases h
      | ok xs =>
        rw [ha] at h
        exact mapCards_shape xs cards h
  · intro r h
    injection h with h
    subst h
    refine ⟨?_, ?_, ?_⟩ <;>
      (intro x hx hnn; simp [hx, nullishOr_of_ne_null x _ hnn])

/-- C6 counterexample: a followup `completed` card with an `extra` key is
returned with the extra key intact, and an initial card without an
`instruction` key becomes the empty object — both contradict "every card
object contains exactly the instruction key". -/
theorem C6_counterexample :
    normalizeFollowup c6Parsed = Except.ok
      { completed := JsVal.arr [c6CardExtra], remaining := JsVal.arr [],
        newTasks := JsVal.arr [], feedback := JsVal.str [] } ∧
    c6CardExtra ≠ JsVal.obj [(toCL "instruction", JsVal.str (toCL "x"))] ∧
    normalizeInitialCards (JsVal.obj [(toCL "cards", JsVal.arr [JsVal.obj []])]) =
      Except.ok [JsVal.obj []] ∧
    JsVal.obj ([] : List (List Char × JsVal)) ≠
      JsVal.obj [(toCL "instruction", JsVal.str (toCL "x"))] := by
  refine ⟨rfl, ?_, rfl, ?_⟩
  · intro h
    simp [c6CardExtra] at h
  · intro h
    simp at h

/-- C6 witness: the initial-mode shape property at a concrete card. -/
theorem C6_field_mapping_witness :
    JsVal.obj [] = JsVal.obj [] ∨
      ∃ i, JsVal.obj ([] : List (List Char × JsVal)) = JsVal.obj [(toCL "instruction", i)] :=
  (C6_field_mapping (JsVal.obj [(toCL "cards", JsVal.arr [JsVal.obj []])]) []).1
    [JsVal.obj []] rfl (JsVal.obj []) (by simp)

/-- C7 (amended): a multipart followup-mode request that carries a valid
image file but lacks `previousImage` or `previousCards` (absent or not a
string) gets `400 { error: "followup mode requires previousImage and
previousCards" }` and no model call. -/
theorem C7_followup_validation (req : DualRequest) (gen : Except GatewayError (List Char))
    (hct : multipartOk req = true)
    (himg : ∃ n t c, req.body.image = some (FormValue.file n t c))
    (hmode : asFormString req.body.mode = some (toCL "followup"))
    (hmiss : asFormString req.body.previousImage = none ∨
      asFormString req.body.previousCards = none) :
    dualHandler req gen = { resp := HttpResp.followupMissing400, genCalls := 0 } ∧
    respStatus HttpResp.followupMissing400 = 400 ∧
    respBodyJson HttpResp.followupMissing400 =
      some (JsVal.obj [(toCL "error",
        JsVal.str (toCL "followup mode requires previousImage and previousCards"))]) := by
  obtain ⟨n, t, c, himgeq⟩ := himg
  have hne : ¬ (toCL "followup" = toCL "initial") := by decide
  refine ⟨?_, rfl, rfl⟩
  rcases hmiss with h | h <;>
    simp [dualHandler, hct, himgeq, hmode, hne, jsFalsyStr, h]

/-- C7 counterexample: a multipart followup-mode request with no image file
and missing previous state gets `400 { error: "image file is required" }`,
not the followup-validation body the claim asserts for every such
request. -/
theorem C7_counterexample :
    dualHandler c7NoImgReq (Except.error GatewayError.missingContent) =
      { resp := HttpResp.imageRequired400, genCalls := 0 } ∧
    HttpResp.imageRequired400 ≠ HttpResp.followupMissing400 := by
  refine ⟨rfl, ?_⟩
  intro h
  cases h

/-- C7 witness: with an image file present and `previousImage` missing the
followup-validation 400 is returned with no model call. -/
theorem C7_followup_validation_witness :
    dualHandler c7Req (Except.error GatewayError.missingContent) =
      { resp := HttpResp.followupMissing400, genCalls := 0 } :=
  (C7_followup_validation c7Req (Except.error GatewayError.missingContent) rfl
    ⟨toCL "room.jpg", toCL "image/jpeg", toCL "JPEG", rfl⟩ rfl (Or.inl rfl)).1

/-- C8: a 2xx response whose filtered card list is empty makes the client
upload transport throw NoCardsGenerated instead of returning an empty
success. -/
theorem C8_no_cards_error (status : Nat) (bodyText : List Char) (data : JsVal)
    (hparse : jsonParse bodyText = some data)
    (hcards : clientCards data = Except.ok []) :
    uploadAndAnalyze true status bodyText = Except.error ClientErr.noCardsGenerated := by
  simp [uploadAndAnalyze, hparse, hcards]

/-- C8 witness: the concrete 200 body `{"cards":[]}` throws
NoCardsGenerated. -/
theorem C8_no_cards_error_witness :
    uploadAndAnalyze true 200 c8Body = Except.error ClientErr.noCardsGenerated :=
  C8_no_cards_error 200 c8Body (JsVal.obj [(toCL "cards", JsVal.arr [])]) rfl rfl

/-- C9: for a HEIC/HEIF upload the node server tries the primary conversion
first; the secondary pure-software decoder runs exactly when the primary
throws; a primary success forwards its output without touching the
secondary; a secondary success forwards its output; and only when both fail
is the request rejected with the 415 heic_convert_failed response instead
of forwarding bytes to the model. -/
theorem C9_heic_fallback (fileType fileName buffer : List Char)
    (primary secondary : Except Unit (List Char))
    (hheic : isHeicUpload fileType fileName = true) :
    (nodeImageStage fileType fileName buffer primary secondary).primaryTried = true ∧
    (∀ b, primary = Except.ok b →
      nodeImageStage fileType fileName buffer primary secondary =
        { resp? := none, forwarded := some b, primaryTried := true,
          secondaryTried := false }) ∧
    (∀ b, primary = Except.error () → secondary = Except.ok b →
      nodeImageStage fileType fileName buffer primary secondary =
        { resp? := none, forwarded := some b, primaryTried := true,
          secondaryTried := true }) ∧
    (primary = Except.error () → secondary = Except.error () →
      nodeImageStage fileType fileName buffer primary secondary =
        { resp? := some HttpResp.heicFailed415, forwarded := none,
          primaryTried := true, secondaryTried := true } ∧
      respStatus HttpResp.heicFailed415 = 415) := by
  cases primary with
  | ok b0 =>
    refine ⟨?_, ?_, ?_, ?_⟩ <;> simp [nodeImageStage, hheic]
  | error e0 =>
    cases e0
    cases secondary with
    | ok b1 =>
      refine ⟨?_, ?_, ?_, ?_⟩ <;> simp [nodeImageStage, hheic]
    | error e1 =>
      cases e1
      refine ⟨?_, ?_, ?_, ?_⟩ <;> simp [nodeImageStage, respStatus, hheic]

/-- C9 witness: a HEIC file on which both decoders fail is rejected with
the 415 response. -/
theorem C9_heic_fallback_witness :
    nodeImageStage (toCL "image/heic") (toCL "IMG_0001.HEIC") (toCL "bytes")
      (Except.error ()) (Except.error ()) =
      { resp? := some HttpResp.heicFailed415, forwarded := none,
        primaryTried := true, secondaryTried := true } :=
  ((C9_heic_fallback (toCL "image/heic") (toCL "IMG_0001.HEIC") (toCL "bytes")
    (Except.error ()) (Except.error ()) rfl).2.2.2 rfl rfl).1

/-- C10 (amended): on a multipart request carrying a valid image file, a
missing or non-string `mode` defaults to `'initial'` and the handler runs
the initial analysis (one model call, never the invalid-mode 400); and the
invalid-mode 400 is returned only when a string `mode` other than
`'initial'`/`'followup'` is present. -/
theorem C10_mode_default (req : DualRequest) (gen : Except GatewayError (List Char))
    (hct : multipartOk req = true)
    (himg : ∃ n t c, req.body.image = some (FormValue.file n t c)) :
    (asFormString req.body.mode = none →
      dualHandler req gen = { resp := initialRespOf gen, genCalls := 1 }) ∧
    ((dualHandler req gen).resp = HttpResp.invalidMode400 →
      ∃ s, req.body.mode = some (FormValue.str s) ∧
        s ≠ toCL "initial" ∧ s ≠ toCL "followup") := by
  obtain ⟨n, t, c, himgeq⟩ := himg
  constructor
  · intro hm
    simp [dualHandler, hct, himgeq, hm]
  · intro hresp
    cases hm : asFormString req.body.mode with
    | none =>
      simp [dualHandler, hct, himgeq, hm] at hresp
      exact absurd hresp (initialRespOf_ne_invalidMode gen)
    | some s =>
      by_cases hsi : s = toCL "initial"
      · simp [dualHandler, hct, himgeq, hm, hsi] at hresp
        exact absurd hresp (initialRespOf_ne_invalidMode gen)
      · by_cases hsf : s = toCL "followup"
        · have hne : ¬ (toCL "followup" = toCL "initial") := by decide
          simp [dualHandler, hct, himgeq, hm, hsf, hne] at hresp
          split at hresp
          · simp at hresp
          · split at hresp
            · simp at hresp
            · split at hresp
              · simp at hresp
              · exact absurd hresp (followupRespOf_ne_invalidMode gen)
        · exact ⟨s, asFormString_eq_some (req.body.mode) s hm, hsi, hsf⟩

/-- C10 counterexample: a multipart request with no `mode` field and no
image file gets `400 { error: "image file is required" }` without any model
call — the handler does not run the initial analysis for every mode-less
multipart request. -/
theorem C10_counterexample :
    dualHandler c10NoImgReq (Except.error GatewayError.missingContent) =
      { resp := HttpResp.imageRequired400, genCalls := 0 } ∧
    HttpResp.imageRequired400 ≠
      initialRespOf (Except.error GatewayError.missingContent) ∧
    (0 : Nat) ≠ 1 := by
  refine ⟨rfl, ?_, by decide⟩
  intro h
  simp [initialRespOf] at h

/-- C10 witness: with an image file and no mode field the handler takes the
initial branch. -/
theorem C10_mode_default_witness :
    dualHandler c10ImgReq (Except.error GatewayError.missingContent) =
      { resp := initialRespOf (Except.error GatewayError.missingContent), genCalls := 1 } :=
  (C10_mode_default c10ImgReq (Except.error GatewayError.missingContent) rfl
    ⟨toCL "room.jpg", toCL "image/jpeg", toCL "JPEG", rfl⟩).1 rfl
